import Mathlib

/-!
Verification development for the streaming chat session controller of the
ai-sme frontend. The definitions below are a shallow embedding of:

  - `src/frontend/lib/store/chat.ts` (the Zustand conversation store),
  - the SSE decoding loop of `chatApi.streamMessage` (auth-aware version,
    `src/frontend/lib/store/auth.ts`),
  - `handleSend` of `src/frontend/components/chat/ChatInput.tsx`.

Modelling conventions: timestamps (`new Date()`) are opaque `Nat` values
passed explicitly at each mutation point; the JS `Map` is an association
list with `Map.get` / `Map.set` / `Map.delete` semantics (first-match,
in-place overwrite, insertion-order preserving); `JSON.parse` is an
abstract parameter `parse : String → Option StreamEvent` (a platform
builtin, not code of this repository); JS string primitives
(`split`, `startsWith`, `slice`, `trim`) are modelled structurally over
the character list of the string so that they evaluate in the kernel.
-/

/-- Characterwise model of `str.split(sep)` for a one-character separator,
matching the JS semantics (`"".split` gives `[""]`, a trailing separator
gives a trailing empty piece). -/
def splitOnChar (sep : Char) : List Char → List (List Char)
  | [] => [[]]
  | c :: rest =>
    if c = sep then [] :: splitOnChar sep rest
    else
      match splitOnChar sep rest with
      | [] => [[c]]
      | l :: ls => (c :: l) :: ls

/-- Model of `chunk.split('\n')`. -/
def jsSplitLines (s : String) : List String :=
  (splitOnChar '\n' s.data).map String.mk

/-- Boolean characterwise prefix test. -/
def isPrefixList : List Char → List Char → Bool
  | [], _ => true
  | _ :: _, [] => false
  | p :: ps, c :: cs => p = c && isPrefixList ps cs

/-- Model of `line.startsWith(pre)`. -/
def jsStartsWith (s pre : String) : Bool :=
  isPrefixList pre.data s.data

/-- Model of `line.slice(n)` (drop the first `n` characters). -/
def jsSlice (s : String) (n : Nat) : String :=
  ⟨s.data.drop n⟩

/-- Model of `s.trim()`: strip leading and trailing whitespace. -/
def jsTrim (s : String) : String :=
  ⟨((s.data.dropWhile Char.isWhitespace).reverse.dropWhile Char.isWhitespace).reverse⟩

/-- Model of the JS expression `a || b` on an optional string: the
fallback `b` is taken when `a` is `undefined` or the empty string
(both are falsy in JS). -/
def jsOrString : Option String → String → String
  | some a, b => if a = "" then b else a
  | none, b => b

/-- Message role, `'user' | 'assistant'` in `chat.ts`. -/
inductive Role where
  | user
  | assistant
deriving DecidableEq

/-- Source reference attached to an assistant message (`chat.ts`). -/
structure Source where
  id : String
  title : String
  url : Option String
  source_type : String
  chunk_index : Option Nat
deriving DecidableEq

/-- Message entity of the chat store (`chat.ts`). -/
structure Message where
  id : String
  role : Role
  content : String
  sources : Option (List Source)
  timestamp : Nat
deriving DecidableEq

/-- Conversation entity of the chat store (`chat.ts`). -/
structure Conversation where
  id : String
  messages : List Message
  createdAt : Nat
  updatedAt : Nat
deriving DecidableEq

/-- Observable state of the Zustand chat store (`chat.ts`): the
`conversations` JS `Map` is modelled as an association list. -/
structure ChatState where
  currentConversationId : Option String
  conversations : List (String × Conversation)
  isLoading : Bool
  error : Option String
deriving DecidableEq

/-- Model of `Map.prototype.get`. -/
def mapGet {α : Type} : List (String × α) → String → Option α
  | [], _ => none
  | p :: rest, k => if p.1 = k then some p.2 else mapGet rest k

/-- Model of `Map.prototype.set`: overwrite the first entry with the key
in place, otherwise append. -/
def mapSet {α : Type} : List (String × α) → String → α → List (String × α)
  | [], k, v => [(k, v)]
  | p :: rest, k, v => if p.1 = k then (k, v) :: rest else p :: mapSet rest k v

/-- Model of `Map.prototype.delete`. -/
def mapDelete {α : Type} : List (String × α) → String → List (String × α)
  | [], _ => []
  | p :: rest, k => if p.1 = k then mapDelete rest k else p :: mapDelete rest k

/-- Embedding of `createConversation` (`chat.ts` lines 60-77): the fresh
id and the `new Date()` value are explicit parameters. -/
def createConversation (s : ChatState) (newId : String) (now : Nat) : ChatState :=
  { s with
    conversations := mapSet s.conversations newId
      { id := newId, messages := [], createdAt := now, updatedAt := now },
    currentConversationId := some newId }

/-- Embedding of a `Partial<Message>` argument to `updateMessage`: a field
that is `none` is absent from the update object and is left unchanged by
the object spread. -/
structure MessageUpdates where
  id : Option String
  role : Option Role
  content : Option String
  sources : Option (Option (List Source))
  timestamp : Option Nat
deriving DecidableEq

/-- Embedding of the spread `\x7b ...msg, ...updates \x7d`. -/
def mergeMessage (m : Message) (u : MessageUpdates) : Message :=
  { id := u.id.getD m.id
    role := u.role.getD m.role
    content := u.content.getD m.content
    sources := u.sources.getD m.sources
    timestamp := u.timestamp.getD m.timestamp }

/-- Update object `\x7b content \x7d` as built by the token and
error paths of `handleSend`. -/
def contentUpdate (c : String) : MessageUpdates :=
  { id := none, role := none, content := some c, sources := none, timestamp := none }

/-- Update object `\x7b content, sources \x7d` as built by the
`complete` path of `handleSend`; the `sources` property is present (it
may hold `undefined`, i.e. the inner `none`). -/
def contentSourcesUpdate (c : String) (srcs : Option (List Source)) : MessageUpdates :=
  { id := none, role := none, content := some c, sources := some srcs, timestamp := none }

/-- Embedding of `addMessage` (`chat.ts` lines 83-104): appends a message
with a freshly generated id and timestamp (explicit parameters here);
silently returns the state unchanged when the conversation is unknown. -/
def addMessage (s : ChatState) (conversationId : String) (role : Role) (content : String)
    (sources : Option (List Source)) (newId : String) (now : Nat) : ChatState :=
  let newMessage : Message :=
    { id := newId, role := role, content := content, sources := sources, timestamp := now }
  match mapGet s.conversations conversationId with
  | none => s
  | some conversation =>
    let updatedConversation : Conversation :=
      { conversation with
        messages := conversation.messages ++ [newMessage],
        updatedAt := now }
    { s with conversations := mapSet s.conversations conversationId updatedConversation }

/-- Embedding of `updateMessage` (`chat.ts` lines 106-126): maps over the
messages, merging the updates into every message whose id matches, and
refreshes the conversation `updatedAt`; silently returns the state
unchanged when the conversation is unknown. -/
def updateMessage (s : ChatState) (conversationId messageId : String)
    (updates : MessageUpdates) (now : Nat) : ChatState :=
  match mapGet s.conversations conversationId with
  | none => s
  | some conversation =>
    let updatedMessages := conversation.messages.map fun msg =>
      if msg.id = messageId then mergeMessage msg updates else msg
    let updatedConversation : Conversation :=
      { conversation with messages := updatedMessages, updatedAt := now }
    { s with conversations := mapSet s.conversations conversationId updatedConversation }

/-- Embedding of `setLoading` (`chat.ts`). -/
def setLoading (s : ChatState) (loading : Bool) : ChatState :=
  { s with isLoading := loading }

/-- Embedding of `setError` (`chat.ts`). -/
def setError (s : ChatState) (e : Option String) : ChatState :=
  { s with error := e }

/-- Embedding of `deleteConversation` (`chat.ts` lines 140-151). -/
def deleteConversation (s : ChatState) (id : String) : ChatState :=
  { s with
    conversations := mapDelete s.conversations id,
    currentConversationId :=
      if s.currentConversationId = some id then none else s.currentConversationId }

/-- Decoded stream event: the duck-typed payload dispatched on
`chunk.type` in `handleSend`. Payload fields that the code reads are
carried; any other payload is `other`. -/
inductive StreamEvent where
  | token (content : String)
  | complete (answer : Option String) (sources : Option (List Source))
  | error (message : Option String)
  | other
deriving DecidableEq

/-- Embedding of the per-chunk body of the `streamMessage` read loop
(`auth.ts` lines 203-217 / `client.ts` lines 80-94): the chunk is split
on newlines, each line with the `data: ` prefix has the prefix sliced
off, blank payloads are skipped, and the rest are fed to `JSON.parse`
(abstract parameter `parse`; a payload it rejects is dropped). Note the
loop keeps NO buffer across chunks: every line of a chunk, terminated or
not, is processed immediately. -/
def decodeChunk (parse : String → Option StreamEvent) (chunk : String) : List StreamEvent :=
  (jsSplitLines chunk).filterMap fun line =>
    if jsStartsWith line "data: " then
      let data := jsSlice line 6
      if jsTrim data = "" then none else parse data
    else none

/-- Events yielded by the whole `streamMessage` read loop over the chunk
sequence delivered by the transport. -/
def decodeChunks (parse : String → Option StreamEvent) (chunks : List String) : List StreamEvent :=
  (chunks.map (decodeChunk parse)).flatten

/-- Outcome of the network fetch inside `streamMessage`: either a 2xx
response whose body arrives as a list of chunks, or a non-ok status. -/
inductive FetchResult where
  | success (chunks : List String)
  | failure (status : Nat)
deriving DecidableEq

/-- Result of running the `streamMessage` generator (`auth.ts` lines
159-222): whether the fetch was issued at all, whether `clearAuth` was
called, and either the yielded event list or the thrown error message. -/
structure StreamRun where
  requestIssued : Bool
  tokenCleared : Bool
  events : Except String (List StreamEvent)

/-- Embedding of the auth-aware `chatApi.streamMessage` (`auth.ts` lines
159-222): with no access token it throws before any fetch; on a non-ok
response it throws, clearing the credential when the status is 403 or
401; otherwise it yields the events decoded from the body chunks. -/
def streamMessageRun (parse : String → Option StreamEvent) (accessToken : Option String)
    (net : FetchResult) : StreamRun :=
  match accessToken with
  | none =>
    { requestIssued := false, tokenCleared := false,
      events := Except.error "Not authenticated. Please sign in." }
  | some _ =>
    match net with
    | FetchResult.failure status =>
      if status = 403 ∨ status = 401 then
        { requestIssued := true, tokenCleared := true,
          events := Except.error "Authentication failed. Please sign in again." }
      else
        { requestIssued := true, tokenCleared := false,
          events := Except.error ("HTTP error! status: " ++ toString status) }
    | FetchResult.success chunks =>
      { requestIssued := true, tokenCleared := false,
        events := Except.ok (decodeChunks parse chunks) }

/-- Embedding of the `token` branch of the `handleSend` event loop
(`ChatInput.tsx` lines 59-70): re-reads the conversation, and only when
it exists, is non-empty and its last message is an assistant message,
replaces that message content with the accumulator. -/
def applyTokenEvent (s : ChatState) (conversationId : String) (fullContent : String)
    (now : Nat) : ChatState :=
  match mapGet s.conversations conversationId with
  | none => s
  | some conversation =>
    match conversation.messages.getLast? with
    | none => s
    | some lastMessage =>
      if lastMessage.role = Role.assistant then
        updateMessage s conversationId lastMessage.id (contentUpdate fullContent) now
      else s

/-- Embedding of the `complete` branch of the `handleSend` event loop
(`ChatInput.tsx` lines 71-82): same re-read and guards, then replaces
the content with `chunk.answer || fullContent` and sets the sources
property to the sources carried by the event. -/
def applyCompleteEvent (s : ChatState) (conversationId : String) (fullContent : String)
    (answer : Option String) (sources : Option (List Source)) (now : Nat) : ChatState :=
  match mapGet s.conversations conversationId with
  | none => s
  | some conversation =>
    match conversation.messages.getLast? with
    | none => s
    | some lastMessage =>
      if lastMessage.role = Role.assistant then
        updateMessage s conversationId lastMessage.id
          (contentSourcesUpdate (jsOrString answer fullContent) sources) now
      else s

/-- Embedding of the `for await` event loop of `handleSend`
(`ChatInput.tsx` lines 58-86): threads the accumulator and the store
state through the events; an `error` event stops the loop and returns
the thrown message `chunk.error || 'Unknown error'`; unrecognized kinds
are ignored. -/
def runEvents (s : ChatState) (conversationId : String) (fullContent : String) (t : Nat) :
    List StreamEvent → ChatState × Option String
  | [] => (s, none)
  | StreamEvent.token c :: rest =>
    let fc := fullContent ++ c
    runEvents (applyTokenEvent s conversationId fc t) conversationId fc (t + 1) rest
  | StreamEvent.complete answer sources :: rest =>
    runEvents (applyCompleteEvent s conversationId fullContent answer sources t)
      conversationId fullContent (t + 1) rest
  | StreamEvent.error m :: _ => (s, some (jsOrString m "Unknown error"))
  | StreamEvent.other :: rest => runEvents s conversationId fullContent (t + 1) rest

/-- Fixed apology text of the `handleSend` catch block. -/
def apologyText : String := "Sorry, I encountered an error. Please try again."

/-- Embedding of the catch-block store update of `handleSend`
(`ChatInput.tsx` lines 91-100): when the conversation still exists, is
non-empty, and its last message is an assistant message with falsy
(empty) content, that message is replaced with the apology text. -/
def applyFailureApology (s : ChatState) (conversationId : String) (now : Nat) : ChatState :=
  match mapGet s.conversations conversationId with
  | none => s
  | some conversation =>
    match conversation.messages.getLast? with
    | none => s
    | some lastMessage =>
      if lastMessage.role = Role.assistant ∧ lastMessage.content = "" then
        updateMessage s conversationId lastMessage.id (contentUpdate apologyText) now
      else s

/-- Observable outcome of one `handleSend` call: the final store state,
the final credential, and whether the streaming fetch was issued. -/
structure SendOutcome where
  chat : ChatState
  accessToken : Option String
  requestIssued : Bool
deriving DecidableEq

/-- Embedding of `handleSend` (`ChatInput.tsx` lines 25-104) driving the
auth-aware `streamMessage`: the guard rejects a blank (after trim) input
or a submission while `isLoading`; otherwise the active conversation is
resolved (created when absent), the user message and the empty assistant
placeholder are appended, loading is set and the error cleared, the
stream is consumed, a thrown error takes the catch path (set error, then
the apology update), and `finally` clears the loading flag. Fresh ids
and timestamps are explicit parameters. -/
def handleSend (parse : String → Option StreamEvent) (input : String) (st : ChatState)
    (accessToken : Option String) (net : FetchResult)
    (newConvId newUserMsgId newAsstMsgId : String) (t0 : Nat) : SendOutcome :=
  if jsTrim input = "" ∨ st.isLoading then
    { chat := st, accessToken := accessToken, requestIssued := false }
  else
    let messageContent := jsTrim input
    let step1 :=
      match st.currentConversationId with
      | some c => (c, st)
      | none => (newConvId, createConversation st newConvId t0)
    let conversationId := step1.1
    let s1 := step1.2
    let s2 := addMessage s1 conversationId Role.user messageContent none newUserMsgId (t0 + 1)
    let s3 := addMessage s2 conversationId Role.assistant "" none newAsstMsgId (t0 + 2)
    let s4 := setError (setLoading s3 true) none
    let sr := streamMessageRun parse accessToken net
    let finalToken : Option String := if sr.tokenCleared then none else accessToken
    match sr.events with
    | Except.ok events =>
      match runEvents s4 conversationId "" (t0 + 3) events with
      | (s5, none) =>
        { chat := setLoading s5 false, accessToken := finalToken,
          requestIssued := sr.requestIssued }
      | (s5, some em) =>
        let s6 := applyFailureApology (setError s5 (some em)) conversationId (t0 + 4)
        { chat := setLoading s6 false, accessToken := finalToken,
          requestIssued := sr.requestIssued }
    | Except.error em =>
      let s6 := applyFailureApology (setError s4 (some em)) conversationId (t0 + 4)
      { chat := setLoading s6 false, accessToken := finalToken,
        requestIssued := sr.requestIssued }

/-- Well-formedness of the session pointer: when a current conversation
id is set, the conversation exists in the store. -/
def validCurrent (s : ChatState) : Bool :=
  match s.currentConversationId with
  | none => true
  | some c => (mapGet s.conversations c).isSome

/-- Identity-relevant projection of a message: its id, role and
creation timestamp. -/
def msgSkeleton (m : Message) : String × Role × Nat :=
  (m.id, m.role, m.timestamp)

/-! Concrete fixture used by counterexamples and witnesses: one
conversation `"c"` holding a user message and an empty assistant
placeholder, matching the state right after `handleSend` has appended
the placeholder of an earlier exchange. -/

/-- Fixture user message. -/
def cexUserMsg : Message :=
  { id := "u1", role := Role.user, content := "hi", sources := none, timestamp := 0 }

/-- Fixture assistant placeholder message. -/
def cexAsstMsg : Message :=
  { id := "a1", role := Role.assistant, content := "", sources := none, timestamp := 1 }

/-- Fixture conversation. -/
def cexConv : Conversation :=
  { id := "c", messages := [cexUserMsg, cexAsstMsg], createdAt := 0, updatedAt := 1 }

/-- Fixture store state. -/
def cexState : ChatState :=
  { currentConversationId := some "c", conversations := [("c", cexConv)],
    isLoading := false, error := none }

/-- Concrete stand-in for `JSON.parse` used by witnesses: recognizes
exactly the one payload of the fixture stream. -/
def parse0 : String → Option StreamEvent := fun s =>
  if s = "\x7b\"type\":\"token\",\"content\":\"Hi\"\x7d" then some (StreamEvent.token "Hi")
  else none

/-- Relation stating that stepping from state `s` to state `s'` touched
at most the last message of conversation `cid` (whose pre-state value is
`conv`): the session fields and every other conversation are unchanged,
and within `cid` the message count and all messages but the last are
unchanged. -/
def mutatesOnlyLast (s s' : ChatState) (cid : String) (conv : Conversation) : Prop :=
  s'.currentConversationId = s.currentConversationId ∧
  s'.isLoading = s.isLoading ∧
  s'.error = s.error ∧
  (∀ k, k ≠ cid → mapGet s'.conversations k = mapGet s.conversations k) ∧
  ∃ conv', mapGet s'.conversations cid = some conv' ∧
    conv'.id = conv.id ∧ conv'.createdAt = conv.createdAt ∧
    conv'.messages.length = conv.messages.length ∧
    conv'.messages.dropLast = conv.messages.dropLast

/-! Lemmas about the association-list model of the JS `Map`. -/

theorem mapGet_mapSet_self {α : Type} (l : List (String × α)) (k : String) (v : α) :
    mapGet (mapSet l k v) k = some v := by
  induction l with
  | nil => simp [mapSet, mapGet]
  | cons p rest ih =>
    by_cases h : p.1 = k
    · simp [mapSet, mapGet, h]
    · simp [mapSet, mapGet, h, ih]

theorem mapGet_mapSet_ne {α : Type} (l : List (String × α)) (k k' : String) (v : α)
    (h : k' ≠ k) : mapGet (mapSet l k v) k' = mapGet l k' := by
  induction l with
  | nil => simp [mapSet, mapGet, Ne.symm h]
  | cons p rest ih =>
    by_cases hp : p.1 = k
    · simp [mapSet, mapGet, hp, Ne.symm h]
    · simp [mapSet, mapGet, hp, ih]

theorem mapSet_mapSet_same {α : Type} (l : List (String × α)) (k : String) (v w : α) :
    mapSet (mapSet l k v) k w = mapSet l k w := by
  induction l with
  | nil => simp [mapSet]
  | cons p rest ih =>
    by_cases hp : p.1 = k
    · simp [mapSet, hp]
    · simp [mapSet, hp, ih]

theorem mapGet_mapDelete_self {α : Type} (l : List (String × α)) (k : String) :
    mapGet (mapDelete l k) k = none := by
  induction l with
  | nil => simp [mapDelete, mapGet]
  | cons p rest ih =>
    by_cases hp : p.1 = k
    · simp [mapDelete, hp, ih]
    · simp [mapDelete, mapGet, hp, ih]

theorem mapDelete_keyFree {α : Type} (l : List (String × α)) (k : String) :
    ∀ p ∈ mapDelete l k, p.1 ≠ k := by
  induction l with
  | nil => simp [mapDelete]
  | cons q rest ih =>
    intro p hp
    by_cases hq : q.1 = k
    · simp only [mapDelete, if_pos hq] at hp
      exact ih p hp
    · simp only [mapDelete, if_neg hq, List.mem_cons] at hp
      rcases hp with h1 | h2
      · rw [h1]; exact hq
      · exact ih p h2

/-! Small helper lemmas. -/

theorem getD_getD {α : Type} (o : Option α) (x : α) :
    o.getD (o.getD x) = o.getD x := by
  cases o <;> rfl

theorem mergeMessage_idem (m : Message) (u : MessageUpdates) :
    mergeMessage (mergeMessage m u) u = mergeMessage m u := by
  simp [mergeMessage, getD_getD]

theorem map_eq_self {α : Type} (l : List α) (f : α → α) (h : ∀ a ∈ l, f a = a) :
    l.map f = l := by
  induction l with
  | nil => rfl
  | cons a t ih =>
    simp only [List.map_cons]
    rw [h a (by simp), ih (fun b hb => h b (by simp [hb]))]

theorem take_length_append {α : Type} (l r : List α) : (l ++ r).take l.length = l := by
  induction l with
  | nil => simp
  | cons a t ih => simp [ih]

/-! Unfolding and frame lemmas for the store operations. -/

theorem updateMessage_notFound (s : ChatState) (cid mid : String) (u : MessageUpdates)
    (t : Nat) (h : mapGet s.conversations cid = none) :
    updateMessage s cid mid u t = s := by
  simp [updateMessage, h]

theorem updateMessage_found (s : ChatState) (cid mid : String) (u : MessageUpdates)
    (t : Nat) (conv : Conversation) (h : mapGet s.conversations cid = some conv) :
    updateMessage s cid mid u t =
      { s with conversations := (mapSet s.conversations cid
          { conv with
            messages := conv.messages.map fun msg =>
              if msg.id = mid then mergeMessage msg u else msg,
            updatedAt := t }) } := by
  simp [updateMessage, h]

theorem addMessage_notFound (s : ChatState) (cid : String) (role : Role) (content : String)
    (sources : Option (List Source)) (newId : String) (now : Nat)
    (h : mapGet s.conversations cid = none) :
    addMessage s cid role content sources newId now = s := by
  simp [addMessage, h]

theorem addMessage_found (s : ChatState) (cid : String) (role : Role) (content : String)
    (sources : Option (List Source)) (newId : String) (now : Nat)
    (conv : Conversation) (h : mapGet s.conversations cid = some conv) :
    addMessage s cid role content sources newId now =
      { s with conversations := (mapSet s.conversations cid
          { conv with
            messages := conv.messages ++
              [{ id := newId, role := role, content := content,
                 sources := sources, timestamp := now }],
            updatedAt := now }) } := by
  simp [addMessage, h]

theorem updateMessage_session_frame (s : ChatState) (cid mid : String) (u : MessageUpdates)
    (t : Nat) :
    (updateMessage s cid mid u t).currentConversationId = s.currentConversationId ∧
    (updateMessage s cid mid u t).isLoading = s.isLoading ∧
    (updateMessage s cid mid u t).error = s.error := by
  unfold updateMessage
  cases mapGet s.conversations cid <;> simp

theorem updateMap_idem (msgs : List Message) (mid : String) (u : MessageUpdates) :
    ((msgs.map fun m => if m.id = mid then mergeMessage m u else m).map
      fun m => if m.id = mid then mergeMessage m u else m) =
      msgs.map fun m => if m.id = mid then mergeMessage m u else m := by
  rw [List.map_map]
  apply List.map_congr_left
  intro m _
  by_cases hm : m.id = mid
  · simp only [Function.comp_apply, if_pos hm]
    by_cases hg : (mergeMessage m u).id = mid
    · rw [if_pos hg, mergeMessage_idem]
    · rw [if_neg hg]
  · simp only [Function.comp_apply, if_neg hm]

theorem updateMessage_getLast (s : ChatState) (cid : String) (u : MessageUpdates) (t : Nat)
    (conv : Conversation) (last : Message)
    (h : mapGet s.conversations cid = some conv)
    (hl : conv.messages.getLast? = some last) :
    ∃ conv', mapGet (updateMessage s cid last.id u t).conversations cid = some conv' ∧
      conv'.messages.getLast? = some (mergeMessage last u) := by
  rw [updateMessage_found s cid last.id u t conv h]
  refine ⟨_, mapGet_mapSet_self _ _ _, ?_⟩
  have hms : conv.messages.dropLast ++ [last] = conv.messages :=
    List.dropLast_append_getLast? last hl
  conv_lhs => rw [← hms]
  simp only [List.map_append, List.map_cons, List.map_nil, List.getLast?_concat]
  simp

theorem updateMessage_preserves_sources_view (s : ChatState) (cid mid : String)
    (c : String) (t : Nat) (k : String) :
    (mapGet (updateMessage s cid mid (contentUpdate c) t).conversations k).map
        (fun cv => cv.messages.map (fun m => m.sources)) =
      (mapGet s.conversations k).map (fun cv => cv.messages.map (fun m => m.sources)) := by
  cases h : mapGet s.conversations cid with
  | none => rw [updateMessage_notFound _ _ _ _ _ h]
  | some conv =>
    rw [updateMessage_found _ _ _ _ _ _ h]
    by_cases hk : k = cid
    · subst hk
      rw [mapGet_mapSet_self, h]
      simp only [Option.map, List.map_map]
      congr 1
      apply List.map_congr_left
      intro m _
      by_cases hm : m.id = mid
      · simp [hm, mergeMessage, contentUpdate]
      · simp [hm]
    · rw [mapGet_mapSet_ne _ _ _ _ hk]

theorem applyFailureApology_session_frame (s : ChatState) (cid : String) (t : Nat) :
    (applyFailureApology s cid t).currentConversationId = s.currentConversationId ∧
    (applyFailureApology s cid t).isLoading = s.isLoading ∧
    (applyFailureApology s cid t).error = s.error := by
  unfold applyFailureApology
  split
  · exact ⟨rfl, rfl, rfl⟩
  · split
    · exact ⟨rfl, rfl, rfl⟩
    · split
      · exact updateMessage_session_frame _ _ _ _ _
      · exact ⟨rfl, rfl, rfl⟩

theorem mapGet_mapDelete_ne {α : Type} (l : List (String × α)) (k k' : String)
    (h : k' ≠ k) : mapGet (mapDelete l k) k' = mapGet l k' := by
  induction l with
  | nil => rfl
  | cons p rest ih =>
    by_cases hp : p.1 = k
    · rw [mapDelete, if_pos hp, ih, mapGet, if_neg (by rw [hp]; exact Ne.symm h)]
    · rw [mapDelete, if_neg hp]
      by_cases hpk : p.1 = k'
      · rw [mapGet, if_pos hpk, mapGet, if_pos hpk]
      · rw [mapGet, if_neg hpk, mapGet, if_neg hpk, ih]

/-- Claim C8: deleteConversation removes the addressed conversation — its
id resolves to nothing afterwards and no entry with that id remains to be
listed, while every other conversation is untouched — and the active
pointer becomes null exactly when the deleted id was the active one,
otherwise it is unchanged. -/
theorem deleteConversation_spec (s : ChatState) (id : String) :
    mapGet (deleteConversation s id).conversations id = none ∧
    (∀ p ∈ (deleteConversation s id).conversations, p.1 ≠ id) ∧
    (∀ k, k ≠ id → mapGet (deleteConversation s id).conversations k =
      mapGet s.conversations k) ∧
    (deleteConversation s id).currentConversationId =
      (if s.currentConversationId = some id then none else s.currentConversationId) :=
  ⟨mapGet_mapDelete_self _ _, mapDelete_keyFree _ _,
   fun _ hk => mapGet_mapDelete_ne _ _ _ hk, rfl⟩

/-- Claim C2 counterexample: with a known conversation id but an unknown
message id, updateMessage is not a no-op — the conversation object is
rebuilt with a fresh updatedAt, so the state differs whenever the call
time differs from the stored updatedAt. -/
theorem updateMessage_unknownMessageId_changes_state :
    updateMessage cexState "c" "zz" (contentUpdate "x") 5 ≠ cexState := by decide

/-- Claim C2 as amended: with an unknown conversation id, updateMessage
is an exact no-op; with a known conversation id but an unknown message
id, the message list and every other component of the state are
unchanged, except that the addressed conversation's updatedAt is
refreshed to the call time. -/
theorem updateMessage_unknown_ids (s : ChatState) (cid mid : String)
    (u : MessageUpdates) (t : Nat) :
    (mapGet s.conversations cid = none → updateMessage s cid mid u t = s) ∧
    (∀ conv, mapGet s.conversations cid = some conv →
      (∀ m ∈ conv.messages, m.id ≠ mid) →
      updateMessage s cid mid u t =
        { s with conversations :=
          (mapSet s.conversations cid { conv with updatedAt := t }) }) := by
  constructor
  · intro h; exact updateMessage_notFound _ _ _ _ _ h
  · intro conv h hids
    rw [updateMessage_found _ _ _ _ _ _ h]
    have hmap : (conv.messages.map fun msg =>
        if msg.id = mid then mergeMessage msg u else msg) = conv.messages :=
      map_eq_self _ _ (fun m hm => by rw [if_neg (hids m hm)])
    rw [hmap]

/-- Claim C2 witness: the two branches of the amended statement applied
at the concrete fixture state. -/
theorem updateMessage_unknown_ids_witness :
    updateMessage cexState "nope" "a1" (contentUpdate "x") 5 = cexState ∧
    updateMessage cexState "c" "zz" (contentUpdate "x") 5 =
      { cexState with conversations :=
        (mapSet cexState.conversations "c" { cexConv with updatedAt := 5 }) } :=
  ⟨(updateMessage_unknown_ids cexState "nope" "a1" (contentUpdate "x") 5).1 (by decide),
   (updateMessage_unknown_ids cexState "c" "zz" (contentUpdate "x") 5).2 cexConv
     (by decide) (by decide)⟩

/-- Claim C3 counterexample: updateMessage applied twice in a row is not
idempotent on the observable state, because each application stamps the
conversation with its own call time: applying at times 0 and then 1
differs from applying once at time 0. -/
theorem updateMessage_twice_differs_from_once :
    updateMessage (updateMessage cexState "c" "a1" (contentUpdate "x") 0)
        "c" "a1" (contentUpdate "x") 1 ≠
      updateMessage cexState "c" "a1" (contentUpdate "x") 0 := by decide

/-- Claim C3 as amended: updateMessage is idempotent up to the updatedAt
timestamp — applying the same (conversationId, messageId, updates) twice,
at times t1 and then t2, yields exactly the state of a single application
at time t2; in particular two applications at equal times collapse to
one. -/
theorem updateMessage_idem_up_to_timestamp (s : ChatState) (cid mid : String)
    (u : MessageUpdates) (t1 t2 : Nat) :
    updateMessage (updateMessage s cid mid u t1) cid mid u t2 =
      updateMessage s cid mid u t2 := by
  cases h : mapGet s.conversations cid with
  | none => rw [updateMessage_notFound _ _ _ _ _ h]
  | some conv =>
    rw [updateMessage_found s cid mid u t1 conv h]
    have h2 : mapGet ({ s with conversations :=
        (mapSet s.conversations cid
          { conv with
            messages := conv.messages.map fun msg =>
              if msg.id = mid then mergeMessage msg u else msg,
            updatedAt := t1 }) } : ChatState).conversations cid =
        some { conv with
               messages := conv.messages.map fun msg =>
                 if msg.id = mid then mergeMessage msg u else msg,
               updatedAt := t1 } :=
      mapGet_mapSet_self _ _ _
    rw [updateMessage_found _ cid mid u t2 _ h2,
        updateMessage_found s cid mid u t2 conv h]
    have hmm : (List.map ((fun msg => if msg.id = mid then mergeMessage msg u else msg) ∘
        fun msg => if msg.id = mid then mergeMessage msg u else msg) conv.messages) =
        List.map (fun msg => if msg.id = mid then mergeMessage msg u else msg)
          conv.messages := by
      rw [← List.map_map]
      exact updateMap_idem _ _ _
    simp [mapSet_mapSet_same, hmm]

/-- Claim C4: a submission while the loading flag is set, or whose input
is blank after trimming, is rejected by the guard: the store state and
credential are returned untouched and no network request is issued. -/
theorem handleSend_guard_noop (parse : String → Option StreamEvent) (input : String)
    (st : ChatState) (tok : Option String) (net : FetchResult)
    (ncid nuid naid : String) (t0 : Nat)
    (h : jsTrim input = "" ∨ st.isLoading = true) :
    handleSend parse input st tok net ncid nuid naid t0 =
      { chat := st, accessToken := tok, requestIssued := false } := by
  unfold handleSend
  rw [if_pos h]

/-- Claim C4 witness: the guard applied to a whitespace-only input at the
fixture state. -/
theorem handleSend_guard_noop_witness :
    handleSend (fun _ => none) "   " cexState (some "tk") (FetchResult.failure 500)
        "nc" "nu" "na" 0 =
      { chat := cexState, accessToken := some "tk", requestIssued := false } :=
  handleSend_guard_noop _ _ _ _ _ _ _ _ _ (Or.inl (by decide))

/-- Claim C1 (refuted by the code; a code bug relative to the spec and
its Scenario B): the streamMessage decode loop is NOT chunk-boundary
invariant, because it keeps no text buffer across chunks — every line of
a chunk is processed immediately, so a line fragment with no terminator
is consumed, not retained. For any JSON parser: the event delivered as
one chunk yields one token event, but the same bytes split inside the
payload yield no event at all (the first fragment fails to parse and is
dropped; the second fragment no longer carries the leading event
prefix). -/
theorem decodeChunks_not_chunk_invariant (parse : String → Option StreamEvent)
    (e : StreamEvent)
    (h1 : parse "\x7b\"typ" = none)
    (h2 : parse "\x7b\"type\":\"token\",\"content\":\"Hi\"\x7d" = some e) :
    decodeChunks parse ["data: \x7b\"typ", "e\":\"token\",\"content\":\"Hi\"\x7d\n"] = [] ∧
    decodeChunks parse ["data: \x7b\"type\":\"token\",\"content\":\"Hi\"\x7d\n"] = [e] := by
  constructor
  · have hs1 : jsSplitLines "data: \x7b\"typ" = ["data: \x7b\"typ"] := by decide
    have hs2 : jsSplitLines "e\":\"token\",\"content\":\"Hi\"\x7d\n" =
        ["e\":\"token\",\"content\":\"Hi\"\x7d", ""] := by decide
    have hp1 : jsStartsWith "data: \x7b\"typ" "data: " = true := by decide
    have hp2 : jsStartsWith "e\":\"token\",\"content\":\"Hi\"\x7d" "data: " = false := by
      decide
    have hp3 : jsStartsWith "" "data: " = false := by decide
    have hsl1 : jsSlice "data: \x7b\"typ" 6 = "\x7b\"typ" := by decide
    have ht1 : ¬ (jsTrim "\x7b\"typ" = "") := by decide
    simp [decodeChunks, decodeChunk, hs1, hs2, hp1, hp2, hp3, hsl1, ht1, h1]
  · have hs3 : jsSplitLines "data: \x7b\"type\":\"token\",\"content\":\"Hi\"\x7d\n" =
        ["data: \x7b\"type\":\"token\",\"content\":\"Hi\"\x7d", ""] := by decide
    have hp4 : jsStartsWith "data: \x7b\"type\":\"token\",\"content\":\"Hi\"\x7d"
        "data: " = true := by decide
    have hp3 : jsStartsWith "" "data: " = false := by decide
    have hsl2 : jsSlice "data: \x7b\"type\":\"token\",\"content\":\"Hi\"\x7d" 6 =
        "\x7b\"type\":\"token\",\"content\":\"Hi\"\x7d" := by decide
    have ht2 : ¬ (jsTrim "\x7b\"type\":\"token\",\"content\":\"Hi\"\x7d" = "") := by decide
    simp [decodeChunks, decodeChunk, hs3, hp4, hp3, hsl2, ht2, h2]

/-- Claim C1 witness: the same divergence evaluated with the concrete
parser `parse0` (exactly the split of the spec Scenario B). -/
theorem decodeChunks_not_chunk_invariant_witness :
    decodeChunks parse0 ["data: \x7b\"typ", "e\":\"token\",\"content\":\"Hi\"\x7d\n"] = [] ∧
    decodeChunks parse0 ["data: \x7b\"type\":\"token\",\"content\":\"Hi\"\x7d\n"] =
      [StreamEvent.token "Hi"] :=
  decodeChunks_not_chunk_invariant parse0 (StreamEvent.token "Hi") (by decide) (by decide)

/-- Claim C7 counterexample: when the completion event carries a present
but empty final text (answer = some ""), the code's `chunk.answer ||
fullContent` falls back to the token accumulator instead of using the
server-declared empty text: at the fixture state the assistant message
ends with content "acc", not "". -/
theorem completeEvent_empty_answer_uses_accumulator :
    (mapGet (applyCompleteEvent cexState "c" "acc" (some "") none 7).conversations "c").map
        (fun conv => conv.messages.map (fun m => m.content)) = some ["hi", "acc"] ∧
    ("acc" : String) ≠ "" := by decide

/-- Claim C7 as amended: on a completion event applied to a conversation
whose last message is an assistant message, that message's content
becomes the server-declared final text unless it is absent OR EMPTY (the
JS falsy test), in which case the token accumulator is used, and its
sources become exactly the sources carried by the event; token events
and the failure-apology update never change any message's sources, so
completion events are the only point at which sources are attached. -/
theorem completeEvent_content_and_sources (s : ChatState) (cid fc : String)
    (answer : Option String) (srcs : Option (List Source)) (t : Nat)
    (conv : Conversation) (last : Message)
    (h : mapGet s.conversations cid = some conv)
    (hl : conv.messages.getLast? = some last)
    (hr : last.role = Role.assistant) :
    (∃ conv', mapGet (applyCompleteEvent s cid fc answer srcs t).conversations cid =
        some conv' ∧
      ∃ last', conv'.messages.getLast? = some last' ∧
        last'.content = jsOrString answer fc ∧
        last'.sources = srcs) ∧
    (∀ s₂ cid₂ fc₂ t₂ k, (mapGet (applyTokenEvent s₂ cid₂ fc₂ t₂).conversations k).map
        (fun cv => cv.messages.map (fun m => m.sources)) =
      (mapGet s₂.conversations k).map (fun cv => cv.messages.map (fun m => m.sources))) ∧
    (∀ s₂ cid₂ t₂ k, (mapGet (applyFailureApology s₂ cid₂ t₂).conversations k).map
        (fun cv => cv.messages.map (fun m => m.sources)) =
      (mapGet s₂.conversations k).map (fun cv => cv.messages.map (fun m => m.sources))) := by
  refine ⟨?_, ?_, ?_⟩
  · have hred : applyCompleteEvent s cid fc answer srcs t =
        updateMessage s cid last.id (contentSourcesUpdate (jsOrString answer fc) srcs) t := by
      simp [applyCompleteEvent, h, hl, hr]
    rw [hred]
    obtain ⟨conv', hget, hlast⟩ :=
      updateMessage_getLast s cid (contentSourcesUpdate (jsOrString answer fc) srcs) t
        conv last h hl
    exact ⟨conv', hget, mergeMessage last _, hlast, rfl, rfl⟩
  · intro s₂ cid₂ fc₂ t₂ k
    unfold applyTokenEvent
    split
    · rfl
    · split
      · rfl
      · split
        · exact updateMessage_preserves_sources_view _ _ _ _ _ _
        · rfl
  · intro s₂ cid₂ t₂ k
    unfold applyFailureApology
    split
    · rfl
    · split
      · rfl
      · split
        · exact updateMessage_preserves_sources_view _ _ _ _ _ _
        · rfl

/-- Claim C7 witness: a completion event with nonempty final text "fin"
and one source applied at the fixture state. -/
theorem completeEvent_content_and_sources_witness :
    (∃ conv', mapGet (applyCompleteEvent cexState "c" "acc" (some "fin")
        (some [{ id := "s1", title := "Doc A", url := none,
                 source_type := "confluence", chunk_index := none }]) 7).conversations "c" =
        some conv' ∧
      ∃ last', conv'.messages.getLast? = some last' ∧
        last'.content = jsOrString (some "fin") "acc" ∧
        last'.sources = some [{ id := "s1", title := "Doc A", url := none,
                                source_type := "confluence", chunk_index := none }]) ∧
    (∀ s₂ cid₂ fc₂ t₂ k, (mapGet (applyTokenEvent s₂ cid₂ fc₂ t₂).conversations k).map
        (fun cv => cv.messages.map (fun m => m.sources)) =
      (mapGet s₂.conversations k).map (fun cv => cv.messages.map (fun m => m.sources))) ∧
    (∀ s₂ cid₂ t₂ k, (mapGet (applyFailureApology s₂ cid₂ t₂).conversations k).map
        (fun cv => cv.messages.map (fun m => m.sources)) =
      (mapGet s₂.conversations k).map (fun cv => cv.messages.map (fun m => m.sources))) :=
  completeEvent_content_and_sources cexState "c" "acc" (some "fin")
    (some [{ id := "s1", title := "Doc A", url := none,
             source_type := "confluence", chunk_index := none }]) 7 cexConv cexAsstMsg
    (by decide) (by decide) (by decide)

theorem dropLast_map_update (msgs : List Message) (last : Message) (u : MessageUpdates)
    (hl : msgs.getLast? = some last)
    (hu : ∀ m ∈ msgs.dropLast, m.id ≠ last.id) :
    (msgs.map fun m => if m.id = last.id then mergeMessage m u else m).dropLast =
      msgs.dropLast := by
  have hms : msgs.dropLast ++ [last] = msgs := List.dropLast_append_getLast? last hl
  conv_lhs => rw [← hms]
  rw [List.map_append]
  simp only [List.map_cons, List.map_nil, List.dropLast_concat]
  exact map_eq_self _ _ (fun m hm => by rw [if_neg (hu m hm)])

theorem updateMessage_mutatesOnlyLast (s : ChatState) (cid : String) (u : MessageUpdates)
    (t : Nat) (conv : Conversation) (last : Message)
    (h : mapGet s.conversations cid = some conv)
    (hl : conv.messages.getLast? = some last)
    (hu : ∀ m ∈ conv.messages.dropLast, m.id ≠ last.id) :
    mutatesOnlyLast s (updateMessage s cid last.id u t) cid conv := by
  rw [updateMessage_found s cid last.id u t conv h]
  refine ⟨rfl, rfl, rfl, ?_, ?_⟩
  · intro k hk
    exact mapGet_mapSet_ne _ _ _ _ hk
  · refine ⟨_, mapGet_mapSet_self _ _ _, rfl, rfl, ?_, ?_⟩
    · exact List.length_map _ _
    · exact dropLast_map_update conv.messages last u hl hu

/-- Claim C9: a token or complete event re-reads the conversation at
application time; when the conversation is missing, empty, or its last
message is a user message, the event is silently dropped and the state
is returned unchanged; when the last message is an assistant message
(with an id not shared by any earlier message of that conversation, as
store-generated ids are), the event mutates at most that last message:
session fields, every other conversation, the conversation's identity
and creation time, the message count and all messages but the last are
unchanged. -/
theorem streamEvent_targets_last_assistant (s : ChatState) (cid fc : String)
    (answer : Option String) (srcs : Option (List Source)) (t : Nat) :
    (mapGet s.conversations cid = none →
      applyTokenEvent s cid fc t = s ∧ applyCompleteEvent s cid fc answer srcs t = s) ∧
    (∀ conv, mapGet s.conversations cid = some conv → conv.messages = [] →
      applyTokenEvent s cid fc t = s ∧ applyCompleteEvent s cid fc answer srcs t = s) ∧
    (∀ conv last, mapGet s.conversations cid = some conv →
      conv.messages.getLast? = some last → last.role = Role.user →
      applyTokenEvent s cid fc t = s ∧ applyCompleteEvent s cid fc answer srcs t = s) ∧
    (∀ conv last, mapGet s.conversations cid = some conv →
      conv.messages.getLast? = some last → last.role = Role.assistant →
      (∀ m ∈ conv.messages.dropLast, m.id ≠ last.id) →
      mutatesOnlyLast s (applyTokenEvent s cid fc t) cid conv ∧
      mutatesOnlyLast s (applyCompleteEvent s cid fc answer srcs t) cid conv) := by
  refine ⟨?_, ?_, ?_, ?_⟩
  · intro h
    constructor
    · simp [applyTokenEvent, h]
    · simp [applyCompleteEvent, h]
  · intro conv h he
    constructor
    · simp [applyTokenEvent, h, he]
    · simp [applyCompleteEvent, h, he]
  · intro conv last h hl hr
    constructor
    · simp [applyTokenEvent, h, hl, hr]
    · simp [applyCompleteEvent, h, hl, hr]
  · intro conv last h hl hr hu
    constructor
    · have hred : applyTokenEvent s cid fc t =
          updateMessage s cid last.id (contentUpdate fc) t := by
        simp [applyTokenEvent, h, hl, hr]
      rw [hred]
      exact updateMessage_mutatesOnlyLast s cid (contentUpdate fc) t conv last h hl hu
    · have hred : applyCompleteEvent s cid fc answer srcs t =
          updateMessage s cid last.id
            (contentSourcesUpdate (jsOrString answer fc) srcs) t := by
        simp [applyCompleteEvent, h, hl, hr]
      rw [hred]
      exact updateMessage_mutatesOnlyLast s cid
        (contentSourcesUpdate (jsOrString answer fc) srcs) t conv last h hl hu

/-- Claim C9 witness: both event kinds applied at the fixture state,
whose last message is the assistant placeholder. -/
theorem streamEvent_targets_last_assistant_witness :
    mutatesOnlyLast cexState (applyTokenEvent cexState "c" "Hi" 7) "c" cexConv ∧
    mutatesOnlyLast cexState (applyCompleteEvent cexState "c" "Hi" (some "fin") none 7)
      "c" cexConv :=
  (streamEvent_targets_last_assistant cexState "c" "Hi" (some "fin") none 7).2.2.2
    cexConv cexAsstMsg (by decide) (by decide) (by decide) (by decide)

theorem skeleton_map_update (msgs : List Message) (mid : String) (u : MessageUpdates)
    (hid : u.id = none) (hrole : u.role = none) (hts : u.timestamp = none) :
    (msgs.map fun m => if m.id = mid then mergeMessage m u else m).map msgSkeleton =
      msgs.map msgSkeleton := by
  rw [List.map_map]
  apply List.map_congr_left
  intro m _
  by_cases hm : m.id = mid
  · simp [Function.comp_apply, hm, msgSkeleton, mergeMessage, hid, hrole, hts]
  · simp [Function.comp_apply, hm]

/-- Claim C10: addMessage never changes a conversation's id or createdAt
and keeps all existing messages unchanged as a prefix of the new list
(hence no reordering and no change to any existing message's id, role or
timestamp); updateMessage, when its update object carries only content
and sources fields, additionally preserves the message count and every
message's id, role and timestamp in order. -/
theorem store_ops_frame (s : ChatState) (cid : String) (role : Role) (content : String)
    (sources : Option (List Source)) (nid : String) (now : Nat)
    (mid : String) (u : MessageUpdates) (t : Nat)
    (hid : u.id = none) (hrole : u.role = none) (hts : u.timestamp = none) :
    (∀ k conv, mapGet s.conversations k = some conv →
      ∃ conv', mapGet (addMessage s cid role content sources nid now).conversations k =
          some conv' ∧
        conv'.id = conv.id ∧ conv'.createdAt = conv.createdAt ∧
        conv'.messages.take conv.messages.length = conv.messages) ∧
    (∀ k conv, mapGet s.conversations k = some conv →
      ∃ conv', mapGet (updateMessage s cid mid u t).conversations k = some conv' ∧
        conv'.id = conv.id ∧ conv'.createdAt = conv.createdAt ∧
        conv'.messages.length = conv.messages.length ∧
        conv'.messages.map msgSkeleton = conv.messages.map msgSkeleton) := by
  constructor
  · intro k conv hk
    cases hc : mapGet s.conversations cid with
    | none =>
      rw [addMessage_notFound _ _ _ _ _ _ _ hc]
      exact ⟨conv, hk, rfl, rfl, List.take_length _⟩
    | some conv0 =>
      rw [addMessage_found _ _ _ _ _ _ _ _ hc]
      by_cases hkc : k = cid
      · subst hkc
        rw [hk] at hc
        obtain rfl := Option.some.inj hc
        refine ⟨_, mapGet_mapSet_self _ _ _, rfl, rfl, ?_⟩
        exact take_length_append _ _
      · exact ⟨conv, by rw [mapGet_mapSet_ne _ _ _ _ hkc]; exact hk, rfl, rfl,
          List.take_length _⟩
  · intro k conv hk
    cases hc : mapGet s.conversations cid with
    | none =>
      rw [updateMessage_notFound _ _ _ _ _ hc]
      exact ⟨conv, hk, rfl, rfl, rfl, rfl⟩
    | some conv0 =>
      rw [updateMessage_found _ _ _ _ _ _ hc]
      by_cases hkc : k = cid
      · subst hkc
        rw [hk] at hc
        obtain rfl := Option.some.inj hc
        refine ⟨_, mapGet_mapSet_self _ _ _, rfl, rfl, ?_, ?_⟩
        · exact List.length_map _ _
        · exact skeleton_map_update _ _ _ hid hrole hts
      · exact ⟨conv, by rw [mapGet_mapSet_ne _ _ _ _ hkc]; exact hk, rfl, rfl, rfl, rfl⟩

/-- Claim C10 witness: both frame statements applied at the fixture
state, appending a user message and replacing the placeholder content. -/
theorem store_ops_frame_witness :
    (∃ conv', mapGet (addMessage cexState "c" Role.user "q" none "u9" 9).conversations "c" =
        some conv' ∧
      conv'.id = cexConv.id ∧ conv'.createdAt = cexConv.createdAt ∧
      conv'.messages.take cexConv.messages.length = cexConv.messages) ∧
    (∃ conv', mapGet (updateMessage cexState "c" "a1" (contentUpdate "x") 9).conversations
        "c" = some conv' ∧
      conv'.id = cexConv.id ∧ conv'.createdAt = cexConv.createdAt ∧
      conv'.messages.length = cexConv.messages.length ∧
      conv'.messages.map msgSkeleton = cexConv.messages.map msgSkeleton) :=
  ⟨(store_ops_frame cexState "c" Role.user "q" none "u9" 9 "a1" (contentUpdate "x") 9
      rfl rfl rfl).1 "c" cexConv (by decide),
   (store_ops_frame cexState "c" Role.user "q" none "u9" 9 "a1" (contentUpdate "x") 9
      rfl rfl rfl).2 "c" cexConv (by decide)⟩

theorem applyFailureApology_error (s : ChatState) (cid : String) (t : Nat) :
    (applyFailureApology s cid t).error = s.error :=
  (applyFailureApology_session_frame s cid t).2.2

theorem applyFailureApology_isLoading (s : ChatState) (cid : String) (t : Nat) :
    (applyFailureApology s cid t).isLoading = s.isLoading :=
  (applyFailureApology_session_frame s cid t).2.1

/-- Claim C5: an exchange started without a bearer credential never
issues the streaming request and transitions straight to the failed
session state: the error becomes the authentication-required message
thrown before the fetch, and the loading flag ends cleared. -/
theorem handleSend_noCredential_failed (parse : String → Option StreamEvent)
    (input : String) (st : ChatState) (net : FetchResult)
    (ncid nuid naid : String) (t0 : Nat)
    (h1 : ¬ jsTrim input = "") (h2 : st.isLoading = false) :
    (handleSend parse input st none net ncid nuid naid t0).requestIssued = false ∧
    (handleSend parse input st none net ncid nuid naid t0).chat.error =
      some "Not authenticated. Please sign in." ∧
    (handleSend parse input st none net ncid nuid naid t0).chat.isLoading = false := by
  have hcond : ¬ (jsTrim input = "" ∨ st.isLoading = true) := by
    simp [h1, h2]
  unfold handleSend
  rw [if_neg hcond]
  refine ⟨?_, ?_, ?_⟩
  · simp [streamMessageRun]
  · simp [streamMessageRun, setLoading, applyFailureApology_error, setError]
  · simp [streamMessageRun, setLoading]

/-- Claim C5 witness: a nonblank input at the fixture state with no
credential present. -/
theorem handleSend_noCredential_failed_witness :
    (handleSend (fun _ => none) "q" cexState none (FetchResult.failure 500)
        "nc" "nu" "na" 0).requestIssued = false ∧
    (handleSend (fun _ => none) "q" cexState none (FetchResult.failure 500)
        "nc" "nu" "na" 0).chat.error = some "Not authenticated. Please sign in." ∧
    (handleSend (fun _ => none) "q" cexState none (FetchResult.failure 500)
        "nc" "nu" "na" 0).chat.isLoading = false :=
  handleSend_noCredential_failed (fun _ => none) "q" cexState (FetchResult.failure 500)
    "nc" "nu" "na" 0 (by decide) (by decide)

theorem addTwo_last (s1 : ChatState) (cid : String) (conv1 : Conversation)
    (msgContent : String) (nuid naid : String) (t1 t2 : Nat)
    (h : mapGet s1.conversations cid = some conv1) :
    mapGet (addMessage (addMessage s1 cid Role.user msgContent none nuid t1)
        cid Role.assistant "" none naid t2).conversations cid =
      some { conv1 with
             messages := (conv1.messages ++
               [{ id := nuid, role := Role.user, content := msgContent,
                  sources := none, timestamp := t1 }]) ++
               [{ id := naid, role := Role.assistant, content := "",
                  sources := none, timestamp := t2 }],
             updatedAt := t2 } := by
  rw [addMessage_found _ _ _ _ _ _ _ _ h]
  rw [addMessage_found _ _ _ _ _ _ _ _ (mapGet_mapSet_self _ _ _)]
  exact mapGet_mapSet_self _ _ _

theorem applyFailureApology_sets_apology (s : ChatState) (cid : String) (t : Nat)
    (conv : Conversation) (last : Message)
    (h : mapGet s.conversations cid = some conv)
    (hl : conv.messages.getLast? = some last)
    (hr : last.role = Role.assistant) (hc : last.content = "") :
    ∃ conv', mapGet (applyFailureApology s cid t).conversations cid = some conv' ∧
      ∃ last', conv'.messages.getLast? = some last' ∧
        last'.role = Role.assistant ∧ last'.content = apologyText := by
  have hred : applyFailureApology s cid t =
      updateMessage s cid last.id (contentUpdate apologyText) t := by
    simp [applyFailureApology, h, hl, hr, hc]
  rw [hred]
  obtain ⟨conv', hget, hlast⟩ :=
    updateMessage_getLast s cid (contentUpdate apologyText) t conv last h hl
  exact ⟨conv', hget, mergeMessage last (contentUpdate apologyText), hlast, hr, rfl⟩

/-- Claim C6: when the streaming call returns status 401, the thrown
authentication failure takes the catch path: the session error is set to
the authentication-failed message, the stored credential is cleared, the
assistant placeholder (still empty) is replaced with the fixed apology
text, and the loading flag ends cleared. -/
theorem handleSend_401_clears_auth (parse : String → Option StreamEvent)
    (input : String) (st : ChatState) (tok : String)
    (ncid nuid naid : String) (t0 : Nat)
    (h1 : ¬ jsTrim input = "") (h2 : st.isLoading = false)
    (hv : validCurrent st = true) :
    (handleSend parse input st (some tok) (FetchResult.failure 401)
        ncid nuid naid t0).accessToken = none ∧
    (handleSend parse input st (some tok) (FetchResult.failure 401)
        ncid nuid naid t0).chat.error =
      some "Authentication failed. Please sign in again." ∧
    (handleSend parse input st (some tok) (FetchResult.failure 401)
        ncid nuid naid t0).chat.isLoading = false ∧
    (∃ conv, mapGet (handleSend parse input st (some tok) (FetchResult.failure 401)
        ncid nuid naid t0).chat.conversations (st.currentConversationId.getD ncid) =
        some conv ∧
      ∃ last, conv.messages.getLast? = some last ∧
        last.role = Role.assistant ∧ last.content = apologyText) := by
  have hcond : ¬ (jsTrim input = "" ∨ st.isLoading = true) := by
    simp [h1, h2]
  unfold handleSend
  rw [if_neg hcond]
  cases hcc : st.currentConversationId with
  | none =>
    have hget1 : mapGet (createConversation st ncid t0).conversations ncid =
        some { id := ncid, messages := [], createdAt := t0, updatedAt := t0 } :=
      mapGet_mapSet_self _ _ _
    have h3 := addTwo_last (createConversation st ncid t0) ncid _ (jsTrim input)
      nuid naid (t0 + 1) (t0 + 2) hget1
    refine ⟨?_, ?_, ?_, ?_⟩
    · simp [streamMessageRun]
    · simp [streamMessageRun, setLoading, applyFailureApology_error, setError]
    · simp [streamMessageRun, setLoading]
    · simp only [streamMessageRun, Option.getD]
      exact applyFailureApology_sets_apology _ ncid (t0 + 4) _ _ h3
        (List.getLast?_concat _) rfl rfl
  | some c =>
    obtain ⟨conv1, hc1⟩ : ∃ conv1, mapGet st.conversations c = some conv1 := by
      have := hv
      unfold validCurrent at this
      rw [hcc] at this
      exact Option.isSome_iff_exists.mp this
    have h3 := addTwo_last st c conv1 (jsTrim input) nuid naid (t0 + 1) (t0 + 2) hc1
    refine ⟨?_, ?_, ?_, ?_⟩
    · simp [streamMessageRun]
    · simp [streamMessageRun, setLoading, applyFailureApology_error, setError]
    · simp [streamMessageRun, setLoading]
    · simp only [streamMessageRun, Option.getD]
      exact applyFailureApology_sets_apology _ c (t0 + 4) _ _ h3
        (List.getLast?_concat _) rfl rfl

/-- Claim C6 witness: a 401 response at the fixture state with a
credential present. -/
theorem handleSend_401_clears_auth_witness :
    (handleSend (fun _ => none) "q" cexState (some "tk") (FetchResult.failure 401)
        "nc" "nu" "na" 0).accessToken = none ∧
    (handleSend (fun _ => none) "q" cexState (some "tk") (FetchResult.failure 401)
        "nc" "nu" "na" 0).chat.error =
      some "Authentication failed. Please sign in again." ∧
    (handleSend (fun _ => none) "q" cexState (some "tk") (FetchResult.failure 401)
        "nc" "nu" "na" 0).chat.isLoading = false ∧
    (∃ conv, mapGet (handleSend (fun _ => none) "q" cexState (some "tk")
        (FetchResult.failure 401) "nc" "nu" "na" 0).chat.conversations
        (cexState.currentConversationId.getD "nc") = some conv ∧
      ∃ last, conv.messages.getLast? = some last ∧
        last.role = Role.assistant ∧ last.content = apologyText) :=
  handleSend_401_clears_auth (fun _ => none) "q" cexState "tk" "nc" "nu" "na" 0
    (by decide) (by decide) (by decide)

/-- Claim C3 witness: the amended idempotence equation at the fixture
state with call times 0 and 1. -/
theorem updateMessage_idem_up_to_timestamp_witness :
    updateMessage (updateMessage cexState "c" "a1" (contentUpdate "x") 0)
        "c" "a1" (contentUpdate "x") 1 =
      updateMessage cexState "c" "a1" (contentUpdate "x") 1 :=
  updateMessage_idem_up_to_timestamp cexState "c" "a1" (contentUpdate "x") 0 1

/-- Claim C8 witness: deleting the active fixture conversation. -/
theorem deleteConversation_spec_witness :
    mapGet (deleteConversation cexState "c").conversations "c" = none ∧
    (∀ p ∈ (deleteConversation cexState "c").conversations, p.1 ≠ "c") ∧
    (∀ k, k ≠ "c" → mapGet (deleteConversation cexState "c").conversations k =
      mapGet cexState.conversations k) ∧
    (deleteConversation cexState "c").currentConversationId =
      (if cexState.currentConversationId = some "c" then none
       else cexState.currentConversationId) :=
  deleteConversation_spec cexState "c"
